import Mathlib

/-!
Verification of the VBMDSCS watertank firmware core.

This file gives a shallow embedding, in Lean, of the safety-relevant parts of
the firmware sources (`water_module.py`, `level_estimator.py`, `dypa02yy.py`,
`simple_ble.py`, `main.py`) and proves properties of that embedding.

Conventions used throughout:
- Python floats are modelled as rationals (the source performs only field
  arithmetic and comparisons, so the embedding is exact on every run that
  stays within float range).
- Python `None` becomes `Option.none`; a fallible operation returns `Option`.
- Python truthiness on numbers (`x or d` falls through when `x` is `0`) is
  modelled explicitly where the source relies on it.
- Mutable objects become explicit state records; a method becomes a function
  from the old state (plus arguments) to the new state (plus results).
-/

namespace WaterTank

/-- The four estimator states `OK | LOW | BOTTOM | FAULT` of
`level_estimator.py` and `water_module.py` (represented there as strings). -/
inductive St where
  | ok
  | low
  | bottom
  | fault
deriving DecidableEq, Repr

/-! ## Output policy engine

`WaterModule._apply_fail_safe_outputs` (water_module.py lines 459-520).
The three active-low drive values written to the interlock, pump-ok and
heater-ok pins: value `1` is safe/stop, value `0` is energize/allow.
The record holds the value each `.value(...)` call writes when the
corresponding pin is present and enabled. -/
structure Drives where
  interlock : Nat
  pump : Nat
  heater : Nat
deriving DecidableEq, Repr

/-- Shallow embedding of `WaterModule._apply_fail_safe_outputs`
(water_module.py lines 459-520), as the pure function from
`(test_active, test_allow_outputs, ready, sensor_valid, current_state,
allow_pump_at_low)` to the three drive values written:

- during test mode without explicit output permission: all safe (1);
- before `ready`: all safe (1);
- otherwise `ok_for_pump = sensor_valid and (state == OK or
  (state == LOW and allow_pump_at_low))`,
  `ok_for_heater = sensor_valid and state == OK`,
  pump pin gets `0 if ok_for_pump else 1`,
  heater pin gets `0 if ok_for_heater else 1`,
  interlock pin gets `1 if not ok_for_pump else 0`. -/
def apply_fail_safe_outputs (testActive testAllowOutputs ready sensorValid : Bool)
    (state : St) (allowPumpAtLow : Bool) : Drives :=
  if testActive && !testAllowOutputs then
    { interlock := 1, pump := 1, heater := 1 }
  else if !ready then
    { interlock := 1, pump := 1, heater := 1 }
  else
    let okForPump := sensorValid &&
      (state == St.ok || (state == St.low && allowPumpAtLow))
    let okForHeater := sensorValid && (state == St.ok)
    { interlock := if okForPump then 0 else 1
      pump := if okForPump then 0 else 1
      heater := if okForHeater then 0 else 1 }

/-! ## Hysteresis state machine

`LevelEstimator.decide_state` (level_estimator.py lines 84-119). -/

/-- Shallow embedding of `LevelEstimator.decide_state` (level_estimator.py
lines 84-119): the next state from the current state `cur`, the last computed
percent `lastPct` (None forces FAULT), and the thresholds `low`, `bottom` and
hysteresis band `h`. -/
def decide_state (low bottom h : ℚ) (cur : St) (lastPct : Option ℚ) : St :=
  match lastPct with
  | none => St.fault
  | some p =>
    match cur with
    | St.fault =>
      if p ≤ bottom then St.bottom
      else if p ≤ low then St.low
      else St.ok
    | St.ok =>
      if p ≤ low - h then St.low else St.ok
    | St.low =>
      if p ≤ bottom - h then St.bottom
      else if p ≥ low + h then St.ok
      else St.low
    | St.bottom =>
      if p ≥ bottom + h + h then
        (if p ≤ low - h then St.low else St.ok)
      else St.bottom

/-! ## Sensor frame parser

`DYPA02YY` (dypa02yy.py, identical copy in main.py lines 122-183).
A raw read is a list of byte values; Python bytes become `List Nat`
(each entry < 256 on real input, though no proof below needs that bound).
`decode(errors="ignore")` is modelled by keeping the ASCII range and
dropping non-ASCII bytes; only the digit bytes 48..57 matter to the
parse and every non-digit character is a separator. -/

/-- Protocol mode auto-detected by the driver: binary frames or ASCII. -/
inductive SensorMode where
  | bin
  | asc
deriving DecidableEq, Repr

/-- Shallow embedding of `DYPA02YY._detect_mode` (dypa02yy.py lines 17-30):
binary when the buffer starts with the 0xFF sentinel and decodes to a
distance in (0, 10000); else ASCII when any digit byte is present; else
no mode. -/
def detect_mode (buf : List Nat) : Option SensorMode :=
  if 4 ≤ buf.length ∧ buf.getD 0 0 = 255 ∧
      0 < ((buf.getD 2 0) <<< 8) ||| (buf.getD 3 0) ∧
      ((buf.getD 2 0) <<< 8) ||| (buf.getD 3 0) < 10000 then
    some SensorMode.bin
  else if buf.any (fun c => 48 ≤ c && c ≤ 57) then some SensorMode.asc
  else none

/-- Shallow embedding of the binary scan in `DYPA02YY.read_mm`
(dypa02yy.py lines 54-60): the first sentinel-aligned 4-byte window whose
decoded distance lies in (0, 10000); out-of-range windows are skipped. -/
def scan_bin : List Nat → Option Nat
  | a :: b :: c :: d :: rest =>
    if a = 255 ∧ 0 < ((c <<< 8) ||| d) ∧ ((c <<< 8) ||| d) < 10000 then
      some ((c <<< 8) ||| d)
    else scan_bin (b :: c :: d :: rest)
  | _ => none

/-- The characters surviving `data.decode(errors="ignore")`, modelled as the
ASCII-range bytes of the buffer (multi-byte sequences never yield ASCII
digits and are dropped). -/
def ascii_chars (data : List Nat) : List Nat :=
  data.filter (fun b => b < 128)

/-- One character step of the ASCII accumulation loop in `DYPA02YY.read_mm`
(dypa02yy.py lines 66-72): `acc` models the digit-run string (`none` =
empty, `some v` = its integer value); a digit extends `acc`, a non-digit
flushes a non-empty `acc` into `num`. -/
def asc_step (ch : Nat) (num acc : Option Nat) : Option Nat × Option Nat :=
  if 48 ≤ ch ∧ ch ≤ 57 then (num, some (10 * acc.getD 0 + (ch - 48)))
  else
    match acc with
    | some v => (some v, none)
    | none => (num, none)

/-- The full ASCII accumulation loop (dypa02yy.py lines 66-74), including
the final flush of a trailing digit run at end-of-buffer. -/
def asc_loop : List Nat → Option Nat → Option Nat → Option Nat
  | [], num, acc =>
    (match acc with
     | some v => some v
     | none => num)
  | ch :: rest, num, acc =>
    let s := asc_step ch num acc
    asc_loop rest s.1 s.2

/-- The ASCII branch of `DYPA02YY.read_mm` (dypa02yy.py lines 61-79):
the last assembled integer, returned only when `num` is truthy (Python
`if num and 0 < num < 10000` — both checks are subsumed by 0 < num) and
in range. -/
def parse_ascii (data : List Nat) : Option Nat :=
  match asc_loop (ascii_chars data) none none with
  | some n => if 0 < n ∧ n < 10000 then some n else none
  | none => none

/-- Shallow embedding of `DYPA02YY.read_mm` (dypa02yy.py lines 32-79).
`mode` is the previously locked mode; `stale` says more than 2000 ms have
elapsed since the last detection (`ticks_diff(now, _last_detect_t) > 2000`).
Returns the updated mode and the reading. An empty read returns no reading;
detection runs when no mode is locked or the lock is stale; the binary
branch scans frames, any other mode (ASCII or still-unset) takes the ASCII
branch. The Lean function is total: every decode failure is the value
`none`, never an error, which embeds the "never raises" contract. -/
def read_mm (mode : Option SensorMode) (stale : Bool) (data : List Nat) :
    Option SensorMode × Option Nat :=
  if data.isEmpty then (mode, none)
  else
    let m1 := if mode.isNone || stale then
        match detect_mode data with
        | some m => some m
        | none => mode
      else mode
    match m1 with
    | some SensorMode.bin => (m1, scan_bin data)
    | _ => (m1, parse_ascii data)

/-- Every value the binary scan returns lies strictly in (0, 10000). -/
theorem scan_bin_range (data : List Nat) (n : Nat)
    (h : scan_bin data = some n) : 0 < n ∧ n < 10000 := by
  induction data with
  | nil => simp [scan_bin] at h
  | cons a rest ih =>
    match rest, ih with
    | [], _ => simp [scan_bin] at h
    | [b], _ => simp [scan_bin] at h
    | [b, c], _ => simp [scan_bin] at h
    | b :: c :: d :: rest2, ih =>
      rw [scan_bin] at h
      split at h
      · rename_i hcond
        cases h
        exact ⟨hcond.2.1, hcond.2.2⟩
      · exact ih h

/-- Every value the ASCII branch returns lies strictly in (0, 10000). -/
theorem parse_ascii_range (data : List Nat) (n : Nat)
    (h : parse_ascii data = some n) : 0 < n ∧ n < 10000 := by
  unfold parse_ascii at h
  split at h
  · split at h
    · cases h
      assumption
    · cases h
  · cases h

/-! ## Level estimator

`LevelEstimator` (level_estimator.py, identical copy in main.py lines
187-234). -/

/-- The configuration fields `LevelEstimator` reads. -/
structure LECfg where
  min_mm : ℚ
  max_mm : ℚ
  window : Nat
  ema_alpha : ℚ
  cal_auto_learn : Bool
  cal_empty_mm : Option ℚ
  cal_full_mm : Option ℚ
deriving DecidableEq, Repr

/-- The mutable state of a `LevelEstimator` instance (level_estimator.py
lines 30-37). -/
structure EstState where
  window : List ℚ
  ema : Option ℚ
  obs_min : Option ℚ
  obs_max : Option ℚ
  state : St
  last_pct : Option ℚ
deriving DecidableEq, Repr

/-- The estimator state right after `__init__` (level_estimator.py
lines 30-37). -/
def est_init : EstState :=
  { window := [], ema := none, obs_min := none, obs_max := none,
    state := St.fault, last_pct := none }

/-- Shallow embedding of the module-level `clamp` (level_estimator.py
lines 14-16): `a if x < a else (b if x > b else x)`. -/
def clamp (x a b : ℚ) : ℚ :=
  if x < a then a else if x > b then b else x

/-- Insert into a sorted list, keeping ascending order (helper for
`sort_list`). -/
def insert_sorted (x : ℚ) : List ℚ → List ℚ
  | [] => [x]
  | y :: ys => if x ≤ y then x :: y :: ys else y :: insert_sorted x ys

/-- Ascending stable sort, embedding Python's `sorted(arr)` in
`LevelEstimator._median`. -/
def sort_list : List ℚ → List ℚ
  | [] => []
  | x :: xs => insert_sorted x (sort_list xs)

/-- Shallow embedding of `LevelEstimator._median` (level_estimator.py lines
39-46): sort a copy, pick the middle element for odd length, the mean of the
two middle elements for even length, `none` for the empty list (sorting
preserves length, so the index arithmetic is written on `arr.length`). -/
def median (arr : List ℚ) : Option ℚ :=
  if arr.length = 0 then none
  else if arr.length % 2 = 1 then
    some ((sort_list arr).getD (arr.length / 2) 0)
  else
    some (((sort_list arr).getD (arr.length / 2 - 1) 0 +
           (sort_list arr).getD (arr.length / 2) 0) / 2)

/-- Python's builtin `max(a, b)` on naturals (first argument wins a tie,
which never matters for a value). -/
def py_max_nat (a b : Nat) : Nat :=
  if a ≥ b then a else b

/-- Python's builtin `max(a, b)` on floats. -/
def py_max (a b : ℚ) : ℚ :=
  if a ≥ b then a else b

/-- Python's `x or d` on an optional float: `None` and the falsy value `0.0`
both fall through to `d`. Used by `ingest_mm` for the observed-anchor
fallbacks (`self.obs_max or self.cfg["max_mm"]`). -/
def py_or (x : Option ℚ) (d : ℚ) : ℚ :=
  match x with
  | some v => if v = 0 then d else v
  | none => d

/-- Shallow embedding of `LevelEstimator.ingest_mm` (level_estimator.py
lines 48-82). Returns the new estimator state together with the pair
`(ema_or_none, pct_or_none)`:

- `None` input or input outside `[min_mm, max_mm]` is rejected before any
  mutation;
- the sample is pushed into the window, which is popped from the front past
  `max(3, window)` entries; the median seeds or updates the EMA;
- with auto-learn on, the observed min/max anchors absorb the new EMA;
- effective anchors: configured calibration if not `None`, else the Python
  truthy-or fallback `obs or bound`;
- `pct = clamp(100 * (empty - ema) / max(5, empty - full), 0, 100)`. -/
def ingest_mm (cfg : LECfg) (st : EstState) (mm : Option ℚ) :
    EstState × Option ℚ × Option ℚ :=
  match mm with
  | none => (st, none, none)
  | some v =>
    if ¬(cfg.min_mm ≤ v ∧ v ≤ cfg.max_mm) then (st, none, none)
    else
      let w0 := st.window ++ [v]
      let w := if w0.length > py_max_nat 3 cfg.window then w0.tail else w0
      match median w with
      | none => ({ st with window := w }, none, none)
      | some med =>
        let e := match st.ema with
          | none => med
          | some prev => cfg.ema_alpha * med + (1 - cfg.ema_alpha) * prev
        let omin :=
          if cfg.cal_auto_learn then
            match st.obs_min with
            | none => some e
            | some m => if e < m then some e else some m
          else st.obs_min
        let omax :=
          if cfg.cal_auto_learn then
            match st.obs_max with
            | none => some e
            | some m => if e > m then some e else some m
          else st.obs_max
        let empty := match cfg.cal_empty_mm with
          | some c => c
          | none => py_or omax cfg.max_mm
        let full := match cfg.cal_full_mm with
          | some c => c
          | none => py_or omin cfg.min_mm
        let span := py_max 5 (empty - full)
        let pct := clamp (100 * (empty - e) / span) 0 100
        ({ window := w, ema := some e, obs_min := omin, obs_max := omax,
           state := st.state, last_pct := some pct }, some e, some pct)

/-- C5's anchor-resolution rule exactly as the claim words it: the
configured calibration value when non-null, else the observed anchor when
present, else the plausibility bound. (Spec-side definition, to be compared
with the source's `py_or` fallback.) -/
def claim_empty_anchor (cfg : LECfg) (obsMax : Option ℚ) : ℚ :=
  match cfg.cal_empty_mm with
  | some c => c
  | none =>
    match obsMax with
    | some m => m
    | none => cfg.max_mm

/-- Spec-side full anchor, as the claim words it (see
`claim_empty_anchor`). -/
def claim_full_anchor (cfg : LECfg) (obsMin : Option ℚ) : ℚ :=
  match cfg.cal_full_mm with
  | some c => c
  | none =>
    match obsMin with
    | some m => m
    | none => cfg.min_mm

/-- The percent C5 claims `ingest` returns, given the resolved anchors and
the EMA. -/
def claim_pct (cfg : LECfg) (obsMin obsMax : Option ℚ) (e : ℚ) : ℚ :=
  clamp (100 * (claim_empty_anchor cfg obsMax - e)
    / py_max 5 (claim_empty_anchor cfg obsMax - claim_full_anchor cfg obsMin))
    0 100

/-- Amended empty anchor: the observed anchor is used only when present and
nonzero — an observed anchor equal to 0 is falsy in Python, so
`obs_max or max_mm` skips it. -/
def amended_empty_anchor (cfg : LECfg) (obsMax : Option ℚ) : ℚ :=
  match cfg.cal_empty_mm with
  | some c => c
  | none =>
    match obsMax with
    | some m => if m = 0 then cfg.max_mm else m
    | none => cfg.max_mm

/-- Amended full anchor (see `amended_empty_anchor`). -/
def amended_full_anchor (cfg : LECfg) (obsMin : Option ℚ) : ℚ :=
  match cfg.cal_full_mm with
  | some c => c
  | none =>
    match obsMin with
    | some m => if m = 0 then cfg.min_mm else m
    | none => cfg.min_mm

/-- The percent with the amended anchor resolution. -/
def amended_pct (cfg : LECfg) (obsMin obsMax : Option ℚ) (e : ℚ) : ℚ :=
  clamp (100 * (amended_empty_anchor cfg obsMax - e)
    / py_max 5 (amended_empty_anchor cfg obsMax
             - amended_full_anchor cfg obsMin))
    0 100

/-! ## Config store

`load_config` (water_module.py lines 141-195). The persisted file is a flat
JSON map merged over `DEFAULT_CONFIG`; the embedding models the numeric
fields the validation block touches (pins, names and boolean flags are
passed through unvalidated and play no role in the claims). A well-typed
persisted value is a rational; an absent key is `none`; an unreadable or
unparseable file is `none` for the whole map (the `except` branch that
falls back to the compiled defaults). -/

/-- Python's `int(x)` on a float: truncation toward zero. -/
def py_int (q : ℚ) : ℤ :=
  q.num.tdiv q.den

/-- Python's builtin `max(a, b)` on ints. -/
def py_max_int (a b : ℤ) : ℤ :=
  if a ≥ b then a else b

/-- The `_clampf` helper inside `load_config` (water_module.py lines
175-184), for a well-typed numeric value (the `except` fallback to `d` fires
only on non-numeric input, which this numeric model excludes). -/
def clampf (x a b : ℚ) : ℚ :=
  if x < a then a else if x > b then b else x

/-- The numeric fields of a persisted config file that `load_config`
validates; `none` means the key is absent and the compiled default is
used. -/
structure RawCfg where
  min_mm : Option ℚ := none
  max_mm : Option ℚ := none
  sample_hz : Option ℚ := none
  timeout_ms : Option ℚ := none
  hysteresis_pct : Option ℚ := none
  low_pct : Option ℚ := none
  bottom_pct : Option ℚ := none
  debounce_ms : Option ℚ := none
  uart_buf_max : Option ℚ := none
  wdt_timeout_ms : Option ℚ := none
  ble_send_interval_ms : Option ℚ := none
  test_uart_chunk_min : Option ℚ := none
  test_uart_chunk_max : Option ℚ := none
  test_noise_mm : Option ℚ := none
  test_outlier_prob : Option ℚ := none
  test_dropout_prob : Option ℚ := none
  test_corrupt_prob : Option ℚ := none
  test_jitter_skip_prob : Option ℚ := none
deriving DecidableEq, Repr

/-- The validated numeric config fields produced by `load_config`
(`int(...)`-converted fields are integers, the rest floats). -/
structure Cfg where
  min_mm : ℚ
  max_mm : ℚ
  sample_hz : ℤ
  timeout_ms : ℤ
  hysteresis_pct : ℚ
  low_pct : ℚ
  bottom_pct : ℚ
  debounce_ms : ℤ
  uart_buf_max : ℤ
  wdt_timeout_ms : ℤ
  ble_send_interval_ms : ℤ
  test_uart_chunk_min : ℤ
  test_uart_chunk_max : ℤ
  test_noise_mm : ℚ
  test_outlier_prob : ℚ
  test_dropout_prob : ℚ
  test_corrupt_prob : ℚ
  test_jitter_skip_prob : ℚ
deriving DecidableEq, Repr

/-- Shallow embedding of `load_config` (water_module.py lines 141-195):
merge the persisted map over `DEFAULT_CONFIG` (persisted values win,
`raw = none` is the read/parse-failure fallback to pure defaults), then
validate: swap `min_mm`/`max_mm` when inverted, clamp `sample_hz ≥ 1`,
`timeout_ms ≥ 200`, `hysteresis_pct ≥ 0`, replace `bottom_pct` by
`max(0, low_pct - 1)` when it is not below `low_pct`, clamp `debounce_ms`,
`uart_buf_max`, `wdt_timeout_ms`, `ble_send_interval_ms` and the
test-injection parameters to their floors/ranges. -/
def load_config (raw : Option RawCfg) : Cfg :=
  let g : (RawCfg → Option ℚ) → ℚ → ℚ := fun f d =>
    match raw with
    | some r => (f r).getD d
    | none => d
  let m_min := g (fun r => r.min_mm) 30
  let m_max := g (fun r => r.max_mm) 220
  let mn := if m_min > m_max then m_max else m_min
  let mx := if m_min > m_max then m_min else m_max
  let hz := py_max_int 1 (py_int (g (fun r => r.sample_hz) 8))
  let timeout := py_max_int 200 (py_int (g (fun r => r.timeout_ms) 1200))
  let hyst := py_max 0 (g (fun r => r.hysteresis_pct) 4)
  let low := g (fun r => r.low_pct) 30
  let bottom0 := g (fun r => r.bottom_pct) 10
  let bottom := if bottom0 ≥ low then py_max 0 (low - 1) else bottom0
  let debounce := py_max_int 50 (py_int (g (fun r => r.debounce_ms) 200))
  let buf := py_max_int 64 (py_int (g (fun r => r.uart_buf_max) 256))
  let wdt := py_max_int 2000 (py_int (g (fun r => r.wdt_timeout_ms) 8000))
  let ble := py_max_int 0 (py_int (g (fun r => r.ble_send_interval_ms) 1000))
  let cmin := py_max_int 1 (py_int (g (fun r => r.test_uart_chunk_min) 4))
  let cmax := py_max_int cmin (py_int (g (fun r => r.test_uart_chunk_max) 12))
  { min_mm := mn
    max_mm := mx
    sample_hz := hz
    timeout_ms := timeout
    hysteresis_pct := hyst
    low_pct := low
    bottom_pct := bottom
    debounce_ms := debounce
    uart_buf_max := buf
    wdt_timeout_ms := wdt
    ble_send_interval_ms := ble
    test_uart_chunk_min := cmin
    test_uart_chunk_max := cmax
    test_noise_mm := clampf (g (fun r => r.test_noise_mm) 0) 0 10
    test_outlier_prob := clampf (g (fun r => r.test_outlier_prob) 0) 0 1
    test_dropout_prob := clampf (g (fun r => r.test_dropout_prob) 0) 0 1
    test_corrupt_prob := clampf (g (fun r => r.test_corrupt_prob) 0) 0 1
    test_jitter_skip_prob :=
      clampf (g (fun r => r.test_jitter_skip_prob) 0) 0 1 }


/-! ## Config persistence

`save_config` (main.py lines 110-115). The claim concerns which filesystem
operations the save performs, so the embedding records the trace of
operations: a write of serialized content at a path, or an atomic replace
of one path by another. Paths and serialized content are abstract types;
the canonical path is `cfg["persist_path"]`. -/

/-- A filesystem operation a config save can perform. -/
inductive FsOp (π α : Type) where
  | write (path : π) (content : α)
  | replace (src dst : π)
deriving DecidableEq, Repr

/-- Shallow embedding of `save_config` (main.py lines 110-115) as its trace
of filesystem operations: `open(cfg["persist_path"], "w")` followed by
`f.write(json.dumps(cfg))` is a single direct write of the serialized
config at the canonical path. There is no other operation: no temporary
file and no replace (a write error is caught and printed). -/
def save_config_ops {π α : Type} (persist_path : π) (cfg : α) :
    List (FsOp π α) :=
  [FsOp.write persist_path cfg]

/-- C8's save behaviour exactly as the claim words it (spec-side
definition): serialize and write to a temporary path, then atomically
replace the canonical path with it. On the non-failing path the trace is a
temp write followed by a replace of the canonical path. -/
def save_spec_atomic {π α : Type} (canonical : π)
    (ops : List (FsOp π α)) : Prop :=
  ∃ tmp content, tmp ≠ canonical ∧
    ops = [FsOp.write tmp content, FsOp.replace tmp canonical]

/-! ## BLE TX queue

`SimpleBLE.notify` and `SimpleBLE.notify_priority` (simple_ble.py lines
282-311). A queue entry is a byte payload (`List Nat`); `_queue_max = 32`,
and the coalescing threshold is 240 bytes. -/

/-- `SimpleBLE._queue_max` (simple_ble.py line 102). -/
def queue_max : Nat := 32

/-- The overflow loop of `notify` (simple_ble.py lines 293-297):
`while len(q) > _queue_max: q.pop(0)` — drop from the front until the
queue fits. -/
def pop_excess_front : List (List Nat) → List (List Nat)
  | [] => []
  | a :: t =>
    if (a :: t).length > queue_max then pop_excess_front t else a :: t

/-- The overflow loop of `notify_priority` (simple_ble.py lines 306-310):
`while len(q) > _queue_max: q.pop(1 if len(q) > 1 else 0)`. The fuel
argument (instantiated with the queue length, one removal per iteration)
only bounds the iteration count and never expires. -/
def pop_excess_second_fuel : Nat → List (List Nat) → List (List Nat)
  | 0, q => q
  | fuel + 1, q =>
    if q.length > queue_max then
      pop_excess_second_fuel fuel
        (q.eraseIdx (if q.length > 1 then 1 else 0))
    else q

/-- The `notify_priority` overflow loop with its fuel fixed to the queue
length. -/
def pop_excess_second (q : List (List Nat)) : List (List Nat) :=
  pop_excess_second_fuel q.length q

/-- Shallow embedding of `SimpleBLE.notify` (simple_ble.py lines 282-298):
append the payload, coalescing it into the tail entry when the two together
stay within 240 bytes, then drop entries from the FRONT of the queue while
it exceeds `_queue_max`. -/
def notify (q : List (List Nat)) (data : List Nat) : List (List Nat) :=
  let q1 :=
    match q.getLast? with
    | some last =>
      if last.length + data.length ≤ 240 then q.dropLast ++ [last ++ data]
      else q ++ [data]
    | none => q ++ [data]
  pop_excess_front q1

/-- Shallow embedding of `SimpleBLE.notify_priority` (simple_ble.py lines
300-311): insert the payload at the head, then drop the entry at index 1
(the pre-insertion head) while the queue exceeds `_queue_max`. -/
def notify_priority (q : List (List Nat)) (data : List Nat) :
    List (List Nat) :=
  pop_excess_second (data :: q)

/-- One producer call on the TX queue. -/
inductive TxOp where
  | notify (data : List Nat)
  | priority (data : List Nat)
deriving DecidableEq, Repr

/-- Apply one producer call to the queue. -/
def apply_tx_op (q : List (List Nat)) : TxOp → List (List Nat)
  | TxOp.notify d => notify q d
  | TxOp.priority d => notify_priority q d

/-- Run a sequence of `notify`/`notify_priority` calls on the initially
empty queue (`_tx_queue = []`, simple_ble.py line 101), first call
first. -/
def run_tx_ops (ops : List TxOp) : List (List Nat) :=
  ops.foldl apply_tx_op []

/-! ## Controller UART text-line sensing

`WaterModule._process_uart_text_line` (water_module.py lines 668-711),
from the point where the line has been decoded and parsed into the float
`mm` (empty, comment and unparseable lines return with no state change
before this point). -/

/-- `WaterModule._sensor_fail_threshold` (water_module.py line 252). -/
def sensor_fail_threshold : Nat := 3

/-- The sensor-related controller state `_process_uart_text_line`
touches. -/
structure SensorLineState where
  current_level : ℚ
  sensor_valid : Bool
  last_sensor_time : ℚ
  sensor_fail_count : Nat
deriving DecidableEq, Repr

/-- Shallow embedding of the numeric part of
`WaterModule._process_uart_text_line` (water_module.py lines 687-711), for
a parsed reading `mm` and the current time `now`:

- a reading outside the plausibility window by more than 10 mm increments
  the consecutive-failure counter and marks the sensor invalid once the
  counter reaches the threshold;
- otherwise the reading is clamped into `[min_mm, max_mm]`, stored as the
  current level, the sensor is marked valid, the read time recorded, and
  the failure counter reset. -/
def process_uart_text_line (mn mx : ℚ) (st : SensorLineState)
    (mm : ℚ) (now : ℚ) : SensorLineState :=
  if mm < mn - 10 ∨ mm > mx + 10 then
    let fc := st.sensor_fail_count + 1
    { st with
      sensor_fail_count := fc
      sensor_valid :=
        if fc ≥ sensor_fail_threshold then false else st.sensor_valid }
  else
    let mm1 := if mm < mn then mn else mm
    let mm2 := if mm1 > mx then mx else mm1
    { current_level := mm2, sensor_valid := true,
      last_sensor_time := now, sensor_fail_count := 0 }

end WaterTank

namespace WaterTank

/-- C1: if `ready` is false, or test mode is active without
`test_allow_outputs`, the output policy drives all three outputs to the safe
level 1, for every state, sensor-validity flag and `allow_pump_at_low`. -/
theorem c1_outputs_safe_when_not_ready_or_test_gated
    (testActive testAllowOutputs ready sensorValid : Bool) (state : St)
    (allowPumpAtLow : Bool)
    (h : ready = false ∨ (testActive = true ∧ testAllowOutputs = false)) :
    apply_fail_safe_outputs testActive testAllowOutputs ready sensorValid
      state allowPumpAtLow = { interlock := 1, pump := 1, heater := 1 } := by
  rcases h with h | ⟨h1, h2⟩ <;>
    cases testActive <;> cases testAllowOutputs <;> cases ready <;>
    simp_all [apply_fail_safe_outputs]

/-- Witness for C1 at a concrete input: not ready, state OK, sensor valid. -/
theorem c1_witness :
    apply_fail_safe_outputs false false false true St.ok true
      = { interlock := 1, pump := 1, heater := 1 } :=
  c1_outputs_safe_when_not_ready_or_test_gated false false false true St.ok
    true (Or.inl rfl)

/-- C2: in normal operation (`ready = true`, and test gating not in force),
the heater is allowed (drive 0) iff `sensor_valid` and state OK; the pump is
allowed iff `sensor_valid` and (state OK, or state LOW with
`allow_pump_at_low`); and the interlock drive always equals the pump drive. -/
theorem c2_normal_operation_policy
    (testActive testAllowOutputs sensorValid : Bool) (state : St)
    (allowPumpAtLow : Bool)
    (hgate : testActive = false ∨ testAllowOutputs = true) :
    ((apply_fail_safe_outputs testActive testAllowOutputs true sensorValid
        state allowPumpAtLow).heater = 0
      ↔ (sensorValid = true ∧ state = St.ok)) ∧
    ((apply_fail_safe_outputs testActive testAllowOutputs true sensorValid
        state allowPumpAtLow).pump = 0
      ↔ (sensorValid = true ∧
          (state = St.ok ∨ (state = St.low ∧ allowPumpAtLow = true)))) ∧
    (apply_fail_safe_outputs testActive testAllowOutputs true sensorValid
        state allowPumpAtLow).interlock
      = (apply_fail_safe_outputs testActive testAllowOutputs true sensorValid
        state allowPumpAtLow).pump := by
  cases testActive <;> cases testAllowOutputs <;>
    cases sensorValid <;> cases state <;> cases allowPumpAtLow <;>
    simp_all [apply_fail_safe_outputs]

/-- Witness for C2 at a concrete input: state OK, sensor valid, no test. -/
theorem c2_witness :
    ((apply_fail_safe_outputs false false true true St.ok false).heater = 0
      ↔ (true = true ∧ St.ok = St.ok)) ∧
    ((apply_fail_safe_outputs false false true true St.ok false).pump = 0
      ↔ (true = true ∧
          (St.ok = St.ok ∨ (St.ok = St.low ∧ false = true)))) ∧
    (apply_fail_safe_outputs false false true true St.ok false).interlock
      = (apply_fail_safe_outputs false false true true St.ok false).pump :=
  c2_normal_operation_policy false false true St.ok false (Or.inl rfl)

/-- C4: in state BOTTOM the machine stays in BOTTOM as long as the percent
has not risen to the exit threshold `bottom + 2h`; once `p` reaches that
threshold (`p ≥ bottom + h + h` in the source, read here as the meaning of
"rises past `bottom + 2h`"), the next state is LOW if `p ≤ low - h` and OK
otherwise. -/
theorem c4_bottom_exit_hysteresis (low bottom h p : ℚ) :
    (p < bottom + h + h →
      decide_state low bottom h St.bottom (some p) = St.bottom) ∧
    (bottom + h + h ≤ p →
      decide_state low bottom h St.bottom (some p)
        = (if p ≤ low - h then St.low else St.ok)) := by
  constructor
  · intro hp
    simp [decide_state, not_le.mpr hp]
  · intro hp
    simp [decide_state, hp]

/-- Witness for C4 at concrete inputs: `low = 30`, `bottom = 10`, `h = 4`.
At `p = 17` (below the exit threshold 18) the state stays BOTTOM; at
`p = 20` (past the threshold, and below `low - h = 26`) it re-enters LOW. -/
theorem c4_witness :
    decide_state 30 10 4 St.bottom (some 17) = St.bottom ∧
    decide_state 30 10 4 St.bottom (some 20)
      = (if (20 : ℚ) ≤ 30 - 4 then St.low else St.ok) :=
  ⟨(c4_bottom_exit_hysteresis 30 10 4 17).1 (by norm_num),
   (c4_bottom_exit_hysteresis 30 10 4 20).2 (by norm_num)⟩

/-- C3: for every byte buffer of at most 32 bytes, in every mode state, the
frame parser is total (the embedding returns a value for every input, never
an error), and whenever it returns a reading that reading lies strictly
between 0 and 10000. -/
theorem c3_read_mm_range (mode : Option SensorMode) (stale : Bool)
    (data : List Nat) (hlen : data.length ≤ 32) (n : Nat)
    (h : (read_mm mode stale data).2 = some n) : 0 < n ∧ n < 10000 := by
  unfold read_mm at h
  split at h
  · simp at h
  · dsimp only at h
    split at h
    · exact scan_bin_range data n (by simpa using h)
    · exact parse_ascii_range data n (by simpa using h)

/-- Witness for C3 at a concrete input: a fresh driver fed the binary frame
`FF 00 01 2C` decodes the reading 300, which lies in (0, 10000). -/
theorem c3_witness :
    (read_mm none false [255, 0, 1, 44]).2 = some 300 ∧
    0 < 300 ∧ 300 < 10000 :=
  ⟨by decide,
   c3_read_mm_range none false [255, 0, 1, 44] (by decide) 300 (by decide)⟩

/-- The median of a non-empty window always exists. -/
theorem median_isSome (arr : List ℚ) (h : arr ≠ []) :
    (median arr).isSome := by
  have hlen : arr.length ≠ 0 := fun hz => h (List.length_eq_zero.mp hz)
  unfold median
  rw [if_neg hlen]
  split <;> simp

/-- The amended empty anchor coincides with the source's truthy-or
fallback. -/
theorem amended_empty_eq_py_or (cfg : LECfg) (o : Option ℚ) :
    amended_empty_anchor cfg o
      = (match cfg.cal_empty_mm with
         | some c => c
         | none => py_or o cfg.max_mm) := by
  cases hc : cfg.cal_empty_mm <;> cases o <;>
    simp [amended_empty_anchor, py_or, hc]

/-- The amended full anchor coincides with the source's truthy-or
fallback. -/
theorem amended_full_eq_py_or (cfg : LECfg) (o : Option ℚ) :
    amended_full_anchor cfg o
      = (match cfg.cal_full_mm with
         | some c => c
         | none => py_or o cfg.min_mm) := by
  cases hc : cfg.cal_full_mm <;> cases o <;>
    simp [amended_full_anchor, py_or, hc]

/-- C5 counterexample: with `min_mm = -10`, `max_mm = 220`, no calibration,
auto-learn on, the first accepted sample 0 yields observed anchors
`obs_min = obs_max = some 0` and EMA 0. The claim's resolution then gives
`empty = full = 0` and percent 0, but the code's `obs or bound` fallback
treats the anchor 0.0 as falsy and computes percent `2200/23`. -/
theorem c5_counterexample :
    (ingest_mm ⟨-10, 220, 3, 1/4, true, none, none⟩ est_init
        (some 0)).1.obs_max = some 0 ∧
    (ingest_mm ⟨-10, 220, 3, 1/4, true, none, none⟩ est_init
        (some 0)).2.1 = some 0 ∧
    (ingest_mm ⟨-10, 220, 3, 1/4, true, none, none⟩ est_init
        (some 0)).2.2 = some (2200 / 23) ∧
    claim_pct ⟨-10, 220, 3, 1/4, true, none, none⟩
      (ingest_mm ⟨-10, 220, 3, 1/4, true, none, none⟩ est_init
        (some 0)).1.obs_min
      (ingest_mm ⟨-10, 220, 3, 1/4, true, none, none⟩ est_init
        (some 0)).1.obs_max 0 = 0 ∧
    (2200 : ℚ) / 23 ≠ 0 := by
  refine ⟨?_, ?_, ?_, ?_, by norm_num⟩ <;>
    norm_num [ingest_mm, est_init, median, sort_list, insert_sorted,
      py_or, py_max, py_max_nat, claim_pct, claim_empty_anchor,
      claim_full_anchor, clamp]

/-- C5 amended: for every accepted sample, the percent returned by ingest
equals `clamp(100 * (empty - ema) / max(5, empty - full), 0, 100)` where the
anchors resolve to the configured calibration values when non-null, else the
auto-learned observed anchors when present AND nonzero (an observed anchor
equal to 0 is falsy in Python and falls through), else the plausibility
bounds. -/
theorem c5_percent_formula (cfg : LECfg) (st : EstState) (v : ℚ)
    (hacc : cfg.min_mm ≤ v ∧ v ≤ cfg.max_mm) :
    ∃ e pct,
      (ingest_mm cfg st (some v)).2.1 = some e ∧
      (ingest_mm cfg st (some v)).2.2 = some pct ∧
      pct = amended_pct cfg (ingest_mm cfg st (some v)).1.obs_min
              (ingest_mm cfg st (some v)).1.obs_max e := by
  have hne : (if (st.window ++ [v]).length > py_max_nat 3 cfg.window
      then (st.window ++ [v]).tail else (st.window ++ [v])) ≠ [] := by
    split
    · rename_i hgt
      have h3 : 3 ≤ py_max_nat 3 cfg.window := by
        unfold py_max_nat
        split <;> omega
      intro hnil
      have hlen := congrArg List.length hnil
      simp only [List.length_tail, List.length_append, List.length_cons,
        List.length_nil] at hlen hgt
      omega
    · simp
  obtain ⟨m, hm⟩ := Option.isSome_iff_exists.mp (median_isSome _ hne)
  simp only [ingest_mm]
  rw [if_neg (not_not_intro hacc)]
  simp only [hm]
  refine ⟨_, _, rfl, rfl, ?_⟩
  simp only [amended_pct, amended_empty_eq_py_or, amended_full_eq_py_or]

/-- Witness for C5 (amended) at a concrete input: default calibration
anchors, sample 100 mm. -/
theorem c5_witness :
    ∃ e pct,
      (ingest_mm ⟨30, 220, 5, 1/4, true, some 190, some 50⟩ est_init
          (some 100)).2.1 = some e ∧
      (ingest_mm ⟨30, 220, 5, 1/4, true, some 190, some 50⟩ est_init
          (some 100)).2.2 = some pct ∧
      pct = amended_pct ⟨30, 220, 5, 1/4, true, some 190, some 50⟩
              (ingest_mm ⟨30, 220, 5, 1/4, true, some 190, some 50⟩ est_init
                (some 100)).1.obs_min
              (ingest_mm ⟨30, 220, 5, 1/4, true, some 190, some 50⟩ est_init
                (some 100)).1.obs_max e :=
  c5_percent_formula ⟨30, 220, 5, 1/4, true, some 190, some 50⟩ est_init 100
    (by norm_num)

/-- C6: a `None` sample, or one outside `[min_mm, max_mm]`, is rejected
immediately: both outputs are `None` and the estimator state — window, EMA,
observed anchors, state and last percent — is exactly the prior state. -/
theorem c6_reject_leaves_estimator_unchanged (cfg : LECfg) (st : EstState)
    (mm : Option ℚ)
    (h : mm = none ∨
      ∃ v, mm = some v ∧ ¬(cfg.min_mm ≤ v ∧ v ≤ cfg.max_mm)) :
    ingest_mm cfg st mm = (st, none, none) := by
  rcases h with h | ⟨v, hv, hout⟩
  · subst h
    rfl
  · subst hv
    simp [ingest_mm, hout]

/-- Witness for C6 at a concrete input: sample 500 mm against the default
plausibility window [30, 220]. -/
theorem c6_witness :
    ingest_mm ⟨30, 220, 5, 1/4, true, some 190, some 50⟩ est_init
        (some 500)
      = (est_init, none, none) :=
  c6_reject_leaves_estimator_unchanged _ est_init (some 500)
    (Or.inr ⟨500, rfl, by norm_num⟩)


/-- C7 counterexample: a parseable persisted file containing only
`low_pct = -5` loads to `low_pct = -5` and `bottom_pct = max(0, -6) = 0`,
so the validated config does NOT satisfy `bottom_pct < low_pct`. -/
theorem c7_counterexample :
    (load_config (some { low_pct := some (-5) })).low_pct = -5 ∧
    (load_config (some { low_pct := some (-5) })).bottom_pct = 0 ∧
    ¬((load_config (some { low_pct := some (-5) })).bottom_pct
        < (load_config (some { low_pct := some (-5) })).low_pct) := by
  refine ⟨?_, ?_, ?_⟩ <;>
    norm_num [load_config, py_max, py_max_int, py_int, clampf]

/-- C7 amended: for every persisted numeric key/value input (including the
unreadable/unparseable case, `raw = none`), the loaded config satisfies
`min_mm ≤ max_mm` (swapped if inverted), `sample_hz ≥ 1`,
`timeout_ms ≥ 200`, `hysteresis_pct ≥ 0`, `debounce_ms ≥ 50`,
`uart_buf_max ≥ 64`, and — whenever the resulting `low_pct` is positive —
`bottom_pct < low_pct` (for `low_pct ≤ 0` the fallback `max(0, low_pct - 1)`
fails to be below `low_pct`); persisted values otherwise win over compiled
defaults, shown here for `low_pct` and for an uninverted `min_mm`/`max_mm`
pair. -/
theorem c7_load_config_validates (raw : Option RawCfg) :
    (load_config raw).min_mm ≤ (load_config raw).max_mm ∧
    1 ≤ (load_config raw).sample_hz ∧
    200 ≤ (load_config raw).timeout_ms ∧
    0 ≤ (load_config raw).hysteresis_pct ∧
    (0 < (load_config raw).low_pct →
      (load_config raw).bottom_pct < (load_config raw).low_pct) ∧
    50 ≤ (load_config raw).debounce_ms ∧
    64 ≤ (load_config raw).uart_buf_max ∧
    (∀ r v, raw = some r → r.low_pct = some v →
      (load_config raw).low_pct = v) ∧
    (∀ r a b, raw = some r → r.min_mm = some a → r.max_mm = some b →
      a ≤ b → (load_config raw).min_mm = a ∧ (load_config raw).max_mm = b) := by
  simp only [load_config]
  refine ⟨?_, ?_, ?_, ?_, ?_, ?_, ?_, ?_, ?_⟩
  · split <;> rename_i hlt <;> simp at hlt <;> linarith
  · unfold py_max_int
    split <;> omega
  · unfold py_max_int
    split <;> omega
  · unfold py_max
    split <;> rename_i hge
    · linarith
    · simp at hge
      linarith
  · intro hlow
    split <;> rename_i hbl
    · unfold py_max
      split <;> rename_i hge
      · exact hlow
      · linarith
    · simp only [not_le] at hbl
      exact hbl
  · unfold py_max_int
    split <;> omega
  · unfold py_max_int
    split <;> omega
  · intro r v hr hv
    subst hr
    simp [hv]
  · intro r a b hr ha hb hab
    subst hr
    simp only [ha, hb, Option.getD_some]
    constructor
    · split <;> rename_i hlt
      · linarith
      · rfl
    · split <;> rename_i hlt
      · linarith
      · rfl

/-- Witness for C7 (amended) at a concrete input: persisted
`low_pct = 25`, `bottom_pct = 40` (invalid, gets corrected below 25). -/
theorem c7_witness :
    0 < (load_config (some { low_pct := some 25, bottom_pct := some 40 })).low_pct ∧
    (load_config (some { low_pct := some 25, bottom_pct := some 40 })).bottom_pct
      < (load_config (some { low_pct := some 25, bottom_pct := some 40 })).low_pct :=
  have h := c7_load_config_validates
    (some { low_pct := some 25, bottom_pct := some 40 })
  have hlow : (0 : ℚ) <
      (load_config (some { low_pct := some 25, bottom_pct := some 40 })).low_pct := by
    have := h.2.2.2.2.2.2.2.1 _ 25 rfl rfl
    rw [this]
    norm_num
  ⟨hlow, h.2.2.2.2.1 hlow⟩


/-- C8 counterexample: at the concrete canonical path 0 and config payload
37, the trace of `save_config` is not a temp-write followed by an atomic
replace of the canonical path — the claim's save behaviour does not hold
even on the non-failing path. -/
theorem c8_counterexample :
    ¬ save_spec_atomic (0 : Nat) (save_config_ops 0 (37 : Nat)) := by
  rintro ⟨tmp, content, hne, heq⟩
  simp [save_config_ops] at heq

/-- C8 amended: for every canonical path and config value, `save_config`
performs exactly one filesystem operation — a direct write of the
serialized config at the canonical path — and never a replace; there is no
temporary file (a write error is caught and logged). -/
theorem c8_save_is_direct_write {π α : Type} (path : π) (cfg : α) :
    save_config_ops path cfg = [FsOp.write path cfg] ∧
    ∀ s d, FsOp.replace s d ∉ save_config_ops path cfg := by
  refine ⟨rfl, ?_⟩
  intro s d hmem
  simp [save_config_ops] at hmem

/-- Witness for C8 (amended) at a concrete input. -/
theorem c8_witness :
    save_config_ops (0 : Nat) (37 : Nat) = [FsOp.write 0 37] ∧
    ∀ s d, FsOp.replace s d ∉ save_config_ops (0 : Nat) (37 : Nat) :=
  c8_save_is_direct_write 0 37

/-- The `notify` overflow loop leaves at most `_queue_max` entries. -/
theorem length_pop_excess_front (q : List (List Nat)) :
    (pop_excess_front q).length ≤ queue_max := by
  induction q with
  | nil => simp [pop_excess_front, queue_max]
  | cons a t ih =>
    rw [pop_excess_front]
    split
    · exact ih
    · rename_i hle
      simp only [not_lt] at hle
      exact hle

/-- The `notify_priority` overflow loop leaves at most `_queue_max`
entries, given fuel for every excess entry. -/
theorem length_pop_excess_second_fuel (fuel : Nat) (q : List (List Nat))
    (h : q.length ≤ fuel + queue_max) :
    (pop_excess_second_fuel fuel q).length ≤ queue_max := by
  induction fuel generalizing q with
  | zero =>
    rw [pop_excess_second_fuel]
    simpa using h
  | succ n ih =>
    rw [pop_excess_second_fuel]
    split
    · rename_i hgt
      apply ih
      have hidx : (if q.length > 1 then 1 else 0) < q.length := by
        split <;> simp [queue_max] at hgt <;> omega
      rw [List.length_eraseIdx_of_lt hidx]
      omega
    · rename_i hle
      simp only [not_lt] at hle
      exact hle

/-- The `notify_priority` overflow loop leaves at most `_queue_max`
entries. -/
theorem length_pop_excess_second (q : List (List Nat)) :
    (pop_excess_second q).length ≤ queue_max :=
  length_pop_excess_second_fuel q.length q (by omega)

set_option maxRecDepth 20000 in
/-- C9 counterexample: fill the queue with 32 equal non-coalescible
non-priority payloads (121 bytes each), enqueue the priority payload
`[99]` (its overflow drops the oldest non-priority entry, leaving the
priority entry at the head of a full queue), then enqueue one more
non-priority payload. That last enqueue overflows the capacity and drops
the PRIORITY entry at the head — not the oldest non-priority entry, 31 of
which remain. -/
theorem c9_counterexample :
    run_tx_ops (List.replicate 32 (TxOp.notify (List.replicate 121 7)) ++
        [TxOp.priority [99]])
      = [99] :: List.replicate 31 (List.replicate 121 7) ∧
    run_tx_ops (List.replicate 32 (TxOp.notify (List.replicate 121 7)) ++
        [TxOp.priority [99], TxOp.notify (List.replicate 121 8)])
      = List.replicate 31 (List.replicate 121 7) ++
          [List.replicate 121 8] ∧
    [99] ∉ run_tx_ops (List.replicate 32 (TxOp.notify
        (List.replicate 121 7)) ++
        [TxOp.priority [99], TxOp.notify (List.replicate 121 8)]) := by
  refine ⟨by decide, by decide, by decide⟩

/-- C9 amended: for every sequence of `notify` and `notify_priority`
calls, the transmit queue never holds more than the fixed capacity of 32
entries; when an enqueue overflows the capacity, `notify` drops the entry
at the head of the queue (the oldest entry only when no priority entry has
been inserted at the head) and `notify_priority` drops the entry directly
behind the newly inserted one. -/
theorem c9_queue_never_exceeds_capacity (ops : List TxOp) :
    (run_tx_ops ops).length ≤ queue_max := by
  have key : ∀ (rest : List TxOp) (q : List (List Nat)),
      q.length ≤ queue_max →
      (rest.foldl apply_tx_op q).length ≤ queue_max := by
    intro rest
    induction rest with
    | nil =>
      intro q h
      simpa using h
    | cons op rest2 ih =>
      intro q h
      rw [List.foldl_cons]
      apply ih
      cases op with
      | notify d => exact length_pop_excess_front _
      | priority d => exact length_pop_excess_second _
  exact key ops [] (by simp [queue_max])

/-- C10: in the controller's UART text-line path (with a plausibility
window `min_mm ≤ max_mm`), a numeric reading within 10 mm outside the
window is clamped to the nearest bound, stored as the current level, marks
the sensor valid and resets the consecutive-failure counter; a reading
farther than 10 mm outside the window leaves the level unchanged and
increments the failure counter instead. -/
theorem c10_margin_clamp (mn mx : ℚ) (st : SensorLineState) (r now : ℚ)
    (hw : mn ≤ mx) :
    (((mn - 10 ≤ r ∧ r < mn) ∨ (mx < r ∧ r ≤ mx + 10)) →
      (process_uart_text_line mn mx st r now).current_level
          = (if r < mn then mn else mx) ∧
      (process_uart_text_line mn mx st r now).sensor_valid = true ∧
      (process_uart_text_line mn mx st r now).sensor_fail_count = 0 ∧
      (process_uart_text_line mn mx st r now).last_sensor_time = now) ∧
    ((r < mn - 10 ∨ r > mx + 10) →
      (process_uart_text_line mn mx st r now).sensor_fail_count
          = st.sensor_fail_count + 1 ∧
      (process_uart_text_line mn mx st r now).current_level
          = st.current_level) := by
  constructor
  · intro hmargin
    have hnot : ¬(r < mn - 10 ∨ r > mx + 10) := by
      rcases hmargin with ⟨h1, h2⟩ | ⟨h1, h2⟩
      · push_neg
        constructor <;> linarith
      · push_neg
        constructor <;> linarith
    rcases hmargin with ⟨h1, h2⟩ | ⟨h1, h2⟩
    · have hmx : ¬(mn > mx) := not_lt.mpr hw
      simp [process_uart_text_line, hnot, h2, hmx]
    · have hge : ¬(r < mn) := by
        push_neg
        linarith
      simp [process_uart_text_line, hnot, hge, h1]
  · intro hout
    unfold process_uart_text_line
    rw [if_pos hout]
    exact ⟨rfl, rfl⟩

/-- Witness for C10 at concrete inputs: window `[30, 220]`; the reading 25
(5 mm below the window) is clamped to 30 and accepted, the reading 500 is
counted as a failure. -/
theorem c10_witness :
    ((process_uart_text_line 30 220
        ⟨0, false, 0, 1⟩ 25 77).current_level
      = (if (25 : ℚ) < 30 then 30 else 220) ∧
     (process_uart_text_line 30 220
        ⟨0, false, 0, 1⟩ 25 77).sensor_valid = true ∧
     (process_uart_text_line 30 220
        ⟨0, false, 0, 1⟩ 25 77).sensor_fail_count = 0 ∧
     (process_uart_text_line 30 220
        ⟨0, false, 0, 1⟩ 25 77).last_sensor_time = 77) ∧
    ((process_uart_text_line 30 220
        ⟨0, false, 0, 1⟩ 500 77).sensor_fail_count = 1 + 1 ∧
     (process_uart_text_line 30 220
        ⟨0, false, 0, 1⟩ 500 77).current_level = 0) :=
  ⟨(c10_margin_clamp 30 220 ⟨0, false, 0, 1⟩ 25 77 (by norm_num)).1
      (Or.inl ⟨by norm_num, by norm_num⟩),
   (c10_margin_clamp 30 220 ⟨0, false, 0, 1⟩ 500 77 (by norm_num)).2
      (Or.inr (by norm_num))⟩

end WaterTank
